import Mathlib

/-!
Shallow embedding of the discussion discovery, extraction and aggregation
pipeline of `product_analyst_demo.py` (repository gotech-dev/crawl4ai).

External collaborators (the DuckDuckGo search library, the platform HTTP
endpoint, the browser renderer, the language model and the JSON parser) are
modelled as environment records of functions; a call that raises a Python
exception is modelled as `Except.error`.  Python strings are modelled as Lean
`String`, Python `s[:n]` as taking the first `n` characters, Python
`pat in s` as a naive substring test, and the database as an explicit record
of post and comment rows together with a trace of the SQL operations issued.
-/

set_option maxRecDepth 100000

namespace PA

/-! ## Python string helpers -/

/-- Python `s[:n]`: the first `n` characters of `s`. -/
def strTake (s : String) (n : Nat) : String := String.mk (s.data.take n)

/-- Python `s[n:]`: all but the first `n` characters of `s`. -/
def strDrop (s : String) (n : Nat) : String := String.mk (s.data.drop n)

/-- Python `s.lower()` (ASCII letters). -/
def strLower (s : String) : String := String.mk (s.data.map Char.toLower)

/-- Does the character list `s` start with the character list `pat`? -/
def strStarts : List Char → List Char → Bool
  | _, [] => true
  | [], _ :: _ => false
  | a :: as, b :: bs => a == b && strStarts as bs

/-- Does `s` contain `pat` as a contiguous sublist? -/
def hasSub : List Char → List Char → Bool
  | [], pat => pat.isEmpty
  | a :: rest, pat => strStarts (a :: rest) pat || hasSub rest pat

/-- Python `pat in s` on strings. -/
def strContains (s pat : String) : Bool := hasSub s.data pat.data

/-- Python `a or b` on two optional strings (`None` and `""` are falsy). -/
def pyOrS (a b : Option String) : Option String :=
  match a with
  | some s => if s = "" then b else some s
  | none => b

/-- Python `s.startswith(pre)`. -/
def strStartsWith (s pre : String) : Bool := strStarts s.data pre.data

/-- Python `s.strip()`: remove leading and trailing whitespace. -/
def strTrim (s : String) : String :=
  String.mk
    (((s.data.dropWhile Char.isWhitespace).reverse.dropWhile
        Char.isWhitespace).reverse)

/-- The characters before the next occurrence of a triple-backtick fence. -/
def takeUntilFence : List Char → List Char
  | [] => []
  | c :: rest =>
    if strStarts (c :: rest) ("```".data) then [] else c :: takeUntilFence rest

/-- For a string starting with a fence, Python `s.split("```")[1]`: the text
between the opening fence and the next fence (or the end). -/
def fenceSegment (s : String) : String :=
  String.mk (takeUntilFence (s.data.drop 3))

/-! ## URL classifier (`is_discussion_url`, lines 92-106) -/

def discussionPatterns : List String :=
  ["/thread/", "/comments/", "/posts/", "/t/", "/topic/"]

def profilePatterns : List String :=
  ["/u/", "/user/", "/members/", "/profile/"]

/-- `is_discussion_url`: profile patterns first (return `false`), then
discussion patterns (return `true`), then the Reddit subreddit/comments
exception, else `false`. -/
def isDiscussionUrl (url : String) : Bool :=
  let u := strLower url
  if profilePatterns.any (fun p => strContains u p) then false
  else if discussionPatterns.any (fun p => strContains u p) then true
  else if strContains u "reddit.com/r/" && strContains u "/comments/" then true
  else false

/-! ## Data model of extraction output (`data` dict) and the database -/

/-- The `content` field of an extraction record: absent/null, a string, or a
list of strings (Python `data.get("content") or ""` plus the `isinstance`
branch). -/
inductive ContentVal
  | missing
  | str (s : String)
  | list (l : List String)
deriving DecidableEq

/-- A comment item of the record: either a plain string or an object with
optional `author` and `content` keys (an absent key is `none`). -/
inductive CommentIn
  | str (s : String)
  | obj (author : Option String) (content : Option String)
deriving DecidableEq

/-- The normalized extraction record `{title, content, comments}`.  A falsy
Python value for the whole record (`None` or the empty dict) is modelled as
`Option.none` at the use sites. -/
structure Record where
  title : Option String
  content : ContentVal
  comments : List CommentIn
deriving DecidableEq

structure PostRow where
  id : Nat
  url : String
  title : String
  content : String
deriving DecidableEq

structure CommentRow where
  postId : Nat
  content : String
  author : String
deriving DecidableEq

/-- Database state: the serial counter for the next post id (SERIAL ids start
at 1) and the rows of the two tables in insertion order. -/
structure DB where
  nextId : Nat
  posts : List PostRow
  comments : List CommentRow
deriving DecidableEq

/-- SQL operations issued by `save_data`, in order. -/
inductive DbOp
  | connect
  | selectPost (url : String)
  | insertPost (url title content : String)
  | insertComment (postId : Nat) (content author : String)
deriving DecidableEq

/-- `str(data.get("title") or "No Title")`. -/
def pyTitle : Option String → String
  | none => "No Title"
  | some s => if s = "" then "No Title" else s

/-- Coerce the `content` field to text: a list is joined with blank lines,
anything falsy becomes the empty string. -/
def coerceContent : ContentVal → String
  | .missing => ""
  | .str s => s
  | .list l => String.intercalate "\n\n" l

/-- `c if isinstance(c, str) else c.get("content", "")`. -/
def commentContent : CommentIn → String
  | .str s => s
  | .obj _ c => c.getD ""

/-- `c.get("author", "Unknown") if isinstance(c, dict) else "Unknown"`. -/
def commentAuthor : CommentIn → String
  | .str _ => "Unknown"
  | .obj a _ => a.getD "Unknown"

/-- The comment rows inserted for the comment list `cs` under post id `pid`:
one row per comment whose coerced content is non-empty (the only filter
`save_data` applies), content and author stored verbatim. -/
def savedCommentRows (pid : Nat) (cs : List CommentIn) : List CommentRow :=
  cs.filterMap (fun c =>
    let cc := commentContent c
    if cc = "" then none else some ⟨pid, cc, commentAuthor c⟩)

/-- `save_data(data, url)` over database state `db`.  Returns the new state
and the trace of SQL operations.  `data = none` models a falsy record
(`None` or an empty dict), for which the function returns before connecting. -/
def saveData (data : Option Record) (url : String) (db : DB) : DB × List DbOp :=
  match data with
  | none => (db, [])
  | some r =>
    let title := pyTitle r.title
    let content := coerceContent r.content
    match db.posts.find? (fun p => p.url == url) with
    | some p =>
      let rows := savedCommentRows p.id r.comments
      ({ db with comments := db.comments ++ rows },
       [DbOp.connect, DbOp.selectPost url]
         ++ rows.map (fun c => DbOp.insertComment c.postId c.content c.author))
    | none =>
      let pid := db.nextId
      let rows := savedCommentRows pid r.comments
      (⟨pid + 1,
        db.posts ++ [⟨pid, url, title, content⟩],
        db.comments ++ rows⟩,
       [DbOp.connect, DbOp.selectPost url, DbOp.insertPost url title content]
         ++ rows.map (fun c => DbOp.insertComment c.postId c.content c.author))

/-! ## Search backends (lines 111-222) -/

/-- One result of the DuckDuckGo search library (`r.get("href")`,
`r.get("link")`). -/
structure DdgResult where
  href : Option String
  link : Option String
deriving DecidableEq

structure RedditChild where
  permalink : Option String
deriving DecidableEq

/-- A Reddit search HTTP response: status code and `data.children`. -/
structure RedditResp where
  status : Nat
  children : List RedditChild
deriving DecidableEq

/-- The discovery backends as a black-box environment.  `ddg q k` models
`DDGS().text(q, max_results=k)`; `reddit kw sub k` models the HTTP GET of the
Reddit search endpoint for keyword `kw`, optional subreddit `sub` and limit
`k`.  `Except.error` models a raised exception. -/
structure SearchEnv where
  ddg : String → Nat → Except String (List DdgResult)
  reddit : String → Option String → Nat → Except String RedditResp

/-- The queries issued to the discovery backends, in order. -/
inductive Query
  | ddgText (q : String) (maxResults : Nat)
  | redditSearch (keyword : String) (subreddit : Option String) (lim : Nat)
deriving DecidableEq

/-- The collection loop shared by `search_ddg_api` and `search_site_specific`:
keep the url of each result that is truthy and passes the classifier, break
once `num` links are collected. -/
def ddgCollect (num : Nat) : List DdgResult → List String → List String
  | [], acc => acc
  | r :: rest, acc =>
    match pyOrS r.href r.link with
    | none => ddgCollect num rest acc
    | some u =>
      if u ≠ "" ∧ isDiscussionUrl u then
        let acc2 := acc ++ [u]
        if num ≤ acc2.length then acc2 else ddgCollect num rest acc2
      else ddgCollect num rest acc

/-- `search_ddg_api(keyword, num_results)`: request `2 × num_results` raw
results, filter by the classifier; an exception yields the empty list. -/
def searchDdgApi (env : SearchEnv) (keyword : String) (numResults : Nat) :
    List String × List Query :=
  ((match env.ddg keyword (numResults * 2) with
    | .error _ => []
    | .ok results => ddgCollect numResults results []),
   [Query.ddgText keyword (numResults * 2)])

/-- `search_reddit_api(keyword, subreddit, num_results)`: non-200 status or an
exception yields the empty list; otherwise prepend the Reddit origin to every
truthy permalink. -/
def searchRedditApi (env : SearchEnv) (keyword : String)
    (subreddit : Option String) (numResults : Nat) : List String × List Query :=
  ((match env.reddit keyword subreddit numResults with
    | .error _ => []
    | .ok resp =>
      if resp.status = 200 then
        resp.children.filterMap (fun ch =>
          match ch.permalink with
          | some pl => if pl = "" then none
                       else some ("https://www.reddit.com" ++ pl)
          | none => none)
      else []),
   [Query.redditSearch keyword subreddit numResults])

def targetSites : List String := ["reddit.com", "voz.vn", "tinhte.vn"]

/-- `search_site_specific(keyword, num_per_site)`: one scoped DDG query per
target site, each independently filtered, counted and error-caught. -/
def searchSiteSpecific (env : SearchEnv) (keyword : String) (numPerSite : Nat) :
    List String × List Query :=
  ((targetSites.map (fun site =>
      match env.ddg (keyword ++ " site:" ++ site) (numPerSite * 2) with
      | .error _ => []
      | .ok results => ddgCollect numPerSite results [])).foldl
        (fun a l => a ++ l) [],
   targetSites.map (fun site =>
     Query.ddgText (keyword ++ " site:" ++ site) (numPerSite * 2)))

/-- `keyword.lower().replace(" ", "")`. -/
def lowerNoSpaces (s : String) : String :=
  String.mk ((strLower s).data.filter (fun c => c != ' '))

/-- The subreddit guesses of `search_all_sources`: the hardcoded name
`"blockblast"` followed by the lowercased keyword with spaces removed. -/
def possibleSubreddits (keyword : String) : List String :=
  ["blockblast", lowerNoSpaces keyword]

/-- `all_links.update(l)` for a Python set, modelled as first-occurrence
deduplication in insertion order (the Python set iteration order is
unspecified; no theorem below depends on the order chosen here). -/
def setAdd (acc : List String) (l : List String) : List String :=
  l.foldl (fun a u => if u ∈ a then a else a ++ [u]) acc

/-- `search_all_sources(keyword, num_results)`: run all strategies, merge into
a deduplicated set, truncate to `num_results`.  Also returns the trace of
backend queries issued. -/
def searchAllSources (env : SearchEnv) (keyword : String) (numResults : Nat) :
    List String × List Query :=
  let b := searchDdgApi env keyword numResults
  let c := searchRedditApi env keyword none numResults
  let sc := (possibleSubreddits keyword).map
    (fun sub => searchRedditApi env keyword (some sub) 3)
  let d := searchSiteSpecific env keyword 3
  let allLinks :=
    setAdd (setAdd (setAdd (setAdd [] b.1) c.1)
      (sc.foldl (fun a p => a ++ p.1) [])) d.1
  (allLinks.take numResults,
   b.2 ++ c.2 ++ sc.foldl (fun a p => a ++ p.2) [] ++ d.2)

/-! ## Generic extractor (`crawl_discussion`, lines 224-285) -/

/-- The value returned by the browser renderer (`crawler.arun`). -/
structure CrawlResult where
  success : Bool
  errorMessage : String
  markdown : Option String

/-- The external collaborators of `crawl_discussion`: the browser renderer
(which may raise), the language model (which may raise) and the JSON parser
(`parse s = none` models both a parse exception and a non-object document). -/
structure CrawlEnv where
  render : String → Except String CrawlResult
  llm : String → Except String String
  parse : String → Option Record

/-- The externally visible operations of one extraction. -/
inductive Op
  | render (url : String)
  | llmCall
deriving DecidableEq

/-- The constant tail of the extraction prompt (literal braces written as
escapes). -/
def promptTail : String :=
  "\n\nOUTPUT (JSON only, no markdown):\n\x7b\n    \"title\": \"Post title\",\n    \"content\": \"Main post content\",\n    \"comments\": [\n        \x7b\"author\": \"user1\", \"content\": \"comment1\"\x7d,\n        \x7b\"author\": \"user2\", \"content\": \"comment2\"\x7d\n    ]\n\x7d\n\nExtract ALL visible comments. Return valid JSON only.\n"

/-- The extraction prompt: fixed template around `markdown[:15000]`. -/
def buildPrompt (md : String) : String :=
  "\nYou are extracting data from a forum/discussion page.\n\nPAGE CONTENT:\n"
    ++ strTake md 15000 ++ promptTail

/-- Strip an optional leading fenced-code marker from the model reply:
`strip`, then if it starts with a fence take the first fenced segment and
drop a leading `json` tag, then `strip` again. -/
def stripFences (s : String) : String :=
  let r1 := strTrim s
  let r2 :=
    if strStartsWith r1 "```" then
      let p := fenceSegment r1
      if strStartsWith p "json" then strDrop p 4 else p
    else r1
  strTrim r2

/-- The part of `crawl_discussion` after the rendering call returned a
result.  Every failure after this point (unsuccessful crawl, short page,
model exception, parse failure) is converted to `none`; by the placement of
the `try`/`except` in the source, no exception can escape from here. -/
def genericExtract (env : CrawlEnv) (result : CrawlResult) :
    List Op × Option Record :=
  if result.success then
    match result.markdown with
    | none => ([], none)
    | some md =>
      if md.length < 100 then ([], none)
      else
        match env.llm (buildPrompt md) with
        | .error _ => ([Op.llmCall], none)
        | .ok content =>
          match env.parse (stripFences content) with
          | none => ([Op.llmCall], none)
          | some data => ([Op.llmCall], some data)
  else ([], none)

/-- `crawl_discussion(url)`: render the page (an exception here is NOT inside
any `try` block and propagates), then run the model-based extraction. -/
def crawlDiscussion (env : CrawlEnv) (url : String) :
    List Op × Except String (Option Record) :=
  match env.render url with
  | .error e => ([Op.render url], Except.error e)
  | .ok result =>
    let t := genericExtract env result
    (Op.render url :: t.1, Except.ok t.2)

/-- The per-URL processing step of `main`: every URL, with no routing of any
kind, is handed to `crawl_discussion`. -/
def processUrl (env : CrawlEnv) (url : String) :
    List Op × Except String (Option Record) :=
  crawlDiscussion env url

/-! ## Aggregator/reporter (`analyze_sentiment_aggregated`, lines 287-329) -/

/-- One row of `SELECT p.title, c.content FROM posts p JOIN comments c ...`. -/
structure ReportRow where
  title : String
  content : String
deriving DecidableEq

/-- The collaborators of the reporter: the rows returned by the join query
(most recent first, limit 300 applied by the database) and the language
model. -/
structure ReportEnv where
  rows : List ReportRow
  llm : String → Except String String

inductive ReportResult
  | noData
  | reportText (t : String)
  | failed (e : String)
deriving DecidableEq

/-- One line of the comment block: `f"- \x7br['content']\x7d"`. -/
def commentLine (r : ReportRow) : String := "- " ++ r.content

/-- `"\n".join(...)` over the rows. -/
def commentBlock (rows : List ReportRow) : String :=
  String.intercalate "\n" (rows.map commentLine)

/-- The report prompt: keyword, row count and `all_comments[:20000]` in the
fixed template. -/
def buildReportPrompt (keyword : String) (rows : List ReportRow) : String :=
  "\nPhân tích ý kiến cộng đồng về: \"" ++ keyword ++ "\".\nDữ liệu ("
    ++ toString rows.length ++ " comments):\n"
    ++ strTake (commentBlock rows) 20000
    ++ "\n\nOutput (Tiếng Việt):\n1. Tóm tắt cảm xúc chung.\n2. Top 3 điểm mạnh.\n3. Top 3 điểm yếu.\n4. Xu hướng nổi bật.\n"

/-- `analyze_sentiment_aggregated(keyword)`: zero rows short-circuits before
any model call; otherwise exactly one model call with the built prompt, a
model exception being caught.  The second component is the list of prompts
sent to the model. -/
def analyzeSentiment (env : ReportEnv) (keyword : String) :
    ReportResult × List String :=
  if env.rows = [] then (ReportResult.noData, [])
  else
    let prompt := buildReportPrompt keyword env.rows
    match env.llm prompt with
    | .error e => (ReportResult.failed e, [prompt])
    | .ok t => (ReportResult.reportText t, [prompt])

/-! ## Shared concrete environments and helper lemmas -/

/-- A 200-character page text, long enough to pass the 100-character check. -/
def stubMarkdown : String := String.mk (List.replicate 200 'a')

/-- A crawl environment in which rendering succeeds and the model raises. -/
def envLlmRaises : CrawlEnv :=
  ⟨fun _ => Except.ok ⟨true, "", some stubMarkdown⟩,
   fun _ => Except.error "quota exceeded",
   fun _ => none⟩

/-- A crawl environment in which every collaborator succeeds. -/
def envHappy : CrawlEnv :=
  ⟨fun _ => Except.ok ⟨true, "", some stubMarkdown⟩,
   fun _ => Except.ok "\x7b\x7d",
   fun _ => some ⟨none, ContentVal.missing, []⟩⟩

theorem find?_append_none {α : Type} (p : α → Bool) {l1 : List α} (l2 : List α)
    (h : l1.find? p = none) : (l1 ++ l2).find? p = l2.find? p := by
  induction l1 with
  | nil => simp
  | cons a l ih =>
    cases hpa : p a with
    | true => simp [List.find?_cons_of_pos _ hpa] at h
    | false =>
      rw [List.find?_cons_of_neg _ (by simp [hpa])] at h
      rw [List.cons_append, List.find?_cons_of_neg _ (by simp [hpa])]
      exact ih h

theorem mem_savedCommentRows {pid : Nat} {cs : List CommentIn} {row : CommentRow}
    (h : row ∈ savedCommentRows pid cs) :
    ∃ c ∈ cs, commentContent c ≠ "" ∧ row.content = commentContent c := by
  rw [savedCommentRows] at h
  obtain ⟨c, hc, hsome⟩ := List.mem_filterMap.mp h
  dsimp at hsome
  by_cases hcc : commentContent c = ""
  · rw [if_pos hcc] at hsome
    exact absurd hsome (by simp)
  · rw [if_neg hcc] at hsome
    refine ⟨c, hc, hcc, ?_⟩
    rw [← Option.some.inj hsome]

theorem genericExtract_some_llm (env : CrawlEnv) (result : CrawlResult)
    (d : Record) (h : (genericExtract env result).2 = some d) :
    Op.llmCall ∈ (genericExtract env result).1 := by
  unfold genericExtract at h ⊢
  by_cases hs : result.success = true
  · simp only [hs, if_true] at h ⊢
    cases hm : result.markdown with
    | none => simp [hm] at h
    | some md =>
      simp only [hm] at h ⊢
      by_cases hl : md.length < 100
      · simp [hl] at h
      · simp only [hl, if_false] at h ⊢
        cases hc : env.llm (buildPrompt md) with
        | error e => simp [hc] at h
        | ok content =>
          simp only [hc] at h ⊢
          cases hp : env.parse (stripFences content) with
          | none => simp [hp] at h
          | some dd => simp [hp]
  · simp [hs] at h

/-! ## Claims -/

/-- Claim C10: calling save with an empty or absent record returns
immediately: no SQL operation is issued (in particular no connection is
opened and no post or comment row is inserted) and the database state is
unchanged. -/
theorem C10_empty_record_noop (url : String) (db : DB) :
    saveData none url db = (db, []) := rfl

/-- Claim C7: when the comments-joined-with-posts query returns zero rows,
the reporter returns the no-data outcome and sends no prompt to the language
model. -/
theorem C7_no_rows_no_model_call (env : ReportEnv) (keyword : String)
    (h : env.rows = []) :
    analyzeSentiment env keyword = (ReportResult.noData, []) := by
  simp [analyzeSentiment, h]

/-- Witness for C7 at a concrete environment with zero rows. -/
theorem C7_no_rows_no_model_call_witness :
    analyzeSentiment ⟨[], fun _ => Except.ok "report"⟩ "block blast"
      = (ReportResult.noData, []) :=
  C7_no_rows_no_model_call ⟨[], fun _ => Except.ok "report"⟩ "block blast" rfl

/-- Claim C4: a url containing any profile pattern after lowercasing is
classified as not-a-discussion, even when a discussion pattern is also
present. -/
theorem C4_profile_pattern_overrides (url : String)
    (h : ∃ p ∈ profilePatterns, strContains (strLower url) p = true) :
    isDiscussionUrl url = false := by
  obtain ⟨p, hp, hc⟩ := h
  have hany : profilePatterns.any (fun q => strContains (strLower url) q) = true :=
    List.any_eq_true.mpr ⟨p, hp, hc⟩
  simp [isDiscussionUrl, hany]

/-- Witness for C4 at `/user/bob/thread/1`, which also contains the
discussion pattern `/thread/`. -/
theorem C4_profile_pattern_overrides_witness :
    (∃ p ∈ profilePatterns, strContains (strLower "/user/bob/thread/1") p = true)
    ∧ strContains (strLower "/user/bob/thread/1") "/thread/" = true
    ∧ isDiscussionUrl "/user/bob/thread/1" = false :=
  ⟨⟨"/user/", by decide, by decide⟩, by decide,
   C4_profile_pattern_overrides "/user/bob/thread/1" ⟨"/user/", by decide, by decide⟩⟩

/-- Claim C6 counterexample: an exception raised by the rendering step is not
caught inside `crawl_discussion` — it propagates to the caller instead of
becoming a `none` result. -/
theorem C6_counterexample :
    (crawlDiscussion ⟨fun _ => Except.error "browser crashed",
        fun _ => Except.ok "", fun _ => none⟩ "https://example.com/thread/1").2
      = Except.error "browser crashed"
    ∧ (Except.error "browser crashed" : Except String (Option Record))
        ≠ Except.ok none :=
  ⟨rfl, by simp⟩

/-- Claim C6 amended: once the rendering call has returned without raising,
every later failure — unsuccessful crawl, short page, model invocation,
fence-stripping, JSON parsing — is caught inside the extractor and converted
to an ordinary result; no exception from those steps propagates.  Only a
rendering exception escapes. -/
theorem C6_caught_after_render (env : CrawlEnv) (url : String)
    (r : CrawlResult) (h : env.render url = Except.ok r) :
    ∃ o, (crawlDiscussion env url).2 = Except.ok o := by
  refine ⟨(genericExtract env r).2, ?_⟩
  simp [crawlDiscussion, h]

/-- Witness for the amended C6: a model-invocation exception still yields an
ordinary result. -/
theorem C6_caught_after_render_witness :
    envLlmRaises.render "https://example.com/thread/1"
      = Except.ok ⟨true, "", some stubMarkdown⟩
    ∧ ∃ o, (crawlDiscussion envLlmRaises "https://example.com/thread/1").2
        = Except.ok o :=
  ⟨rfl, C6_caught_after_render envLlmRaises "https://example.com/thread/1"
    ⟨true, "", some stubMarkdown⟩ rfl⟩

/-- Claim C3 counterexample: a platform-R url of the discussion-comments
shape is NOT routed to any structured extractor — processing this url renders
it in the browser and invokes the language model. -/
theorem C3_counterexample :
    (strContains (strLower "https://www.reddit.com/r/games/comments/abc/topic-name/")
        "reddit.com/r/" = true
     ∧ strContains (strLower "https://www.reddit.com/r/games/comments/abc/topic-name/")
        "/comments/" = true)
    ∧ Op.render "https://www.reddit.com/r/games/comments/abc/topic-name/"
        ∈ (processUrl envHappy "https://www.reddit.com/r/games/comments/abc/topic-name/").1
    ∧ Op.llmCall
        ∈ (processUrl envHappy "https://www.reddit.com/r/games/comments/abc/topic-name/").1 :=
  ⟨⟨by decide, by decide⟩, by decide, by decide⟩

/-- Claim C3 amended: there is no structured extractor path — every url,
including platform-R discussion-comments urls, is handed to the generic
extractor: the first operation of processing any url is browser rendering,
and whenever a record is produced the language model was invoked. -/
theorem C3_all_urls_generic (env : CrawlEnv) (url : String) :
    (processUrl env url).1.head? = some (Op.render url)
    ∧ ∀ d, (processUrl env url).2 = Except.ok (some d) →
        Op.llmCall ∈ (processUrl env url).1 := by
  unfold processUrl crawlDiscussion
  cases hr : env.render url with
  | error e => exact ⟨rfl, by intro d hd; simp at hd⟩
  | ok result =>
    refine ⟨rfl, ?_⟩
    intro d hd
    have h2 : (genericExtract env result).2 = some d := by simpa using hd
    exact List.mem_cons_of_mem _ (genericExtract_some_llm env result d h2)

/-- Witness for the amended C3: a successful extraction whose operation list
starts with rendering and contains a model call. -/
theorem C3_all_urls_generic_witness :
    (processUrl envHappy "https://site.com/t/1").1.head?
      = some (Op.render "https://site.com/t/1")
    ∧ Op.llmCall ∈ (processUrl envHappy "https://site.com/t/1").1 :=
  ⟨(C3_all_urls_generic envHappy "https://site.com/t/1").1,
   (C3_all_urls_generic envHappy "https://site.com/t/1").2
     ⟨none, ContentVal.missing, []⟩ rfl⟩

/-- Claim C5: if every discovery backend raises, the combined search returns
the empty list without propagating any exception; each backend failure is
caught at that backend boundary and contributes zero results. -/
theorem C5_all_backends_raise_empty (env : SearchEnv) (keyword : String)
    (numResults : Nat)
    (hd : ∀ q k, ∃ e, env.ddg q k = Except.error e)
    (hr : ∀ kw sub k, ∃ e, env.reddit kw sub k = Except.error e) :
    (searchAllSources env keyword numResults).1 = []
    ∧ (searchDdgApi env keyword numResults).1 = []
    ∧ (searchRedditApi env keyword none numResults).1 = []
    ∧ (searchSiteSpecific env keyword 3).1 = [] := by
  obtain ⟨e1, h1⟩ := hd keyword (numResults * 2)
  obtain ⟨e2, h2⟩ := hr keyword none numResults
  obtain ⟨e3, h3⟩ := hr keyword (some "blockblast") 3
  obtain ⟨e4, h4⟩ := hr keyword (some (lowerNoSpaces keyword)) 3
  obtain ⟨e5, h5⟩ := hd (keyword ++ " site:" ++ "reddit.com") (3 * 2)
  obtain ⟨e6, h6⟩ := hd (keyword ++ " site:" ++ "voz.vn") (3 * 2)
  obtain ⟨e7, h7⟩ := hd (keyword ++ " site:" ++ "tinhte.vn") (3 * 2)
  simp [searchAllSources, searchDdgApi, searchRedditApi, searchSiteSpecific,
        targetSites, possibleSubreddits, setAdd, h1, h2, h3, h4, h5, h6, h7]

/-- Witness for C5: a concrete environment whose backends all raise. -/
theorem C5_all_backends_raise_empty_witness :
    (searchAllSources ⟨fun _ _ => Except.error "network down",
        fun _ _ _ => Except.error "network down"⟩ "block blast" 10).1 = [] :=
  (C5_all_backends_raise_empty _ "block blast" 10
    (fun _ _ => ⟨"network down", rfl⟩) (fun _ _ _ => ⟨"network down", rfl⟩)).1

/-- Claim C9 counterexample: for keyword `telegram` the community guesses are
`["blockblast", "telegram"]`; the guess `blockblast` is not the keyword
(lowercased, whitespace stripped), nor the keyword with a generic suffix
such as `app` or `game` appended — it is a hardcoded name. -/
theorem C9_counterexample :
    possibleSubreddits "telegram" = ["blockblast", "telegram"]
    ∧ ∀ suf ∈ ["", "app", "game"], "blockblast" ≠ "telegram" ++ suf :=
  ⟨by decide, by decide⟩

/-- Claim C9 amended: the scoped platform-R search tries exactly two
community-name guesses — the hardcoded name `blockblast` and the keyword
lowercased with spaces removed — each as a single Reddit search capped at 3
results; the whole backend query trace of a discovery run is this fixed
sequence. -/
theorem C9_scoped_search_queries (env : SearchEnv) (keyword : String)
    (numResults : Nat) :
    (searchAllSources env keyword numResults).2 =
      [Query.ddgText keyword (numResults * 2),
       Query.redditSearch keyword none numResults,
       Query.redditSearch keyword (some "blockblast") 3,
       Query.redditSearch keyword (some (lowerNoSpaces keyword)) 3,
       Query.ddgText (keyword ++ " site:" ++ "reddit.com") (3 * 2),
       Query.ddgText (keyword ++ " site:" ++ "voz.vn") (3 * 2),
       Query.ddgText (keyword ++ " site:" ++ "tinhte.vn") (3 * 2)] := by
  simp [searchAllSources, searchDdgApi, searchRedditApi, searchSiteSpecific,
        targetSites, possibleSubreddits]

/-- Claim C8 counterexample: for a single row whose content has 1000
characters, the comment block is `- ` followed by the full content — 1002
characters, so the content is not pre-truncated to roughly 300 characters
per row, and the line begins with a dash, not with `author: ` (the join
query selects no author column at all). -/
theorem C8_counterexample :
    (commentBlock [⟨"Title", String.mk (List.replicate 1000 'x')⟩]).length = 1002
    ∧ ¬ (1002 ≤ 350)
    ∧ strTake (commentBlock [⟨"Title", String.mk (List.replicate 1000 'x')⟩]) 2
        = "- " := by
  refine ⟨?_, by decide, ?_⟩
  · show ("- " ++ String.mk (List.replicate 1000 'x')).length = 1002
    rw [String.length_append]
    show 2 + (List.replicate 1000 'x').length = 1002
    rw [List.length_replicate]
  · show String.mk ((("- " ++ String.mk (List.replicate 1000 'x'))).data.take 2) = "- "
    rw [String.data_append]
    have h2 : ("- ".data).length = 2 := rfl
    rw [← h2, List.take_left]

/-- Claim C8 amended: when rows exist the reporter makes exactly one model
call, whose prompt embeds the comment block truncated to 20000 characters;
each block line is a dash and a space followed by the row content stored in
full — its length is the content length plus 2, with no per-row truncation
and no author field. -/
theorem C8_prompt_block_shape (env : ReportEnv) (keyword : String)
    (h : env.rows ≠ []) :
    (analyzeSentiment env keyword).2 = [buildReportPrompt keyword env.rows]
    ∧ (∀ r ∈ env.rows, (commentLine r).length = r.content.length + 2
        ∧ strTake (commentLine r) 2 = "- ")
    ∧ (strTake (commentBlock env.rows) 20000).length ≤ 20000 := by
  refine ⟨?_, ?_, ?_⟩
  · rw [analyzeSentiment, if_neg h]
    cases hc : env.llm (buildReportPrompt keyword env.rows) <;> simp [hc]
  · intro r hr
    constructor
    · rw [commentLine, String.length_append]
      show 2 + r.content.length = r.content.length + 2
      exact Nat.add_comm 2 _
    · rw [commentLine]
      have h2 : ("- ".data).length = 2 := rfl
      show String.mk ((("- " ++ r.content).data).take 2) = "- "
      rw [String.data_append, ← h2, List.take_left]
  · show ((commentBlock env.rows).data.take 20000).length ≤ 20000
    rw [List.length_take]
    exact min_le_left _ _

/-- Witness for the amended C8 at a one-row environment. -/
theorem C8_prompt_block_shape_witness :
    ((⟨[⟨"T", "great game overall"⟩], fun _ => Except.ok "done"⟩ : ReportEnv).rows ≠ [])
    ∧ (analyzeSentiment
        ⟨[⟨"T", "great game overall"⟩], fun _ => Except.ok "done"⟩ "kw").2
      = [buildReportPrompt "kw" [⟨"T", "great game overall"⟩]] :=
  ⟨by decide,
   (C8_prompt_block_shape
     ⟨[⟨"T", "great game overall"⟩], fun _ => Except.ok "done"⟩ "kw" (by decide)).1⟩

/-- Saving a record with two plain-string comments over an empty database
inserts both verbatim (stated abstractly so that no large concrete string
needs to be evaluated). -/
theorem saveData_two_plain_comments (s t url : String) (hs : s ≠ "") (ht : t ≠ "") :
    (saveData (some ⟨none, ContentVal.missing, [CommentIn.str s, CommentIn.str t]⟩)
        url ⟨1, [], []⟩).1.comments
      = [⟨1, s, "Unknown"⟩, ⟨1, t, "Unknown"⟩] := by
  simp [saveData, savedCommentRows, commentContent, commentAuthor, hs, ht]

/-- Claim C2 counterexample: `save_data` inserts a 5-character comment row
(the claim says content of at most 10 characters is skipped) and stores a
3000-character comment at its full length (the claim says content is
truncated to exactly 2000 characters). -/
theorem C2_counterexample :
    (saveData (some ⟨none, ContentVal.missing,
        [CommentIn.str "short",
         CommentIn.str (String.mk (List.replicate 3000 'a'))]⟩) "u"
        ⟨1, [], []⟩).1.comments
      = [⟨1, "short", "Unknown"⟩,
         ⟨1, String.mk (List.replicate 3000 'a'), "Unknown"⟩]
    ∧ ("short").length = 5
    ∧ (String.mk (List.replicate 3000 'a')).length = 3000
    ∧ ¬ (10 < 5) ∧ ¬ (3000 ≤ 2000) := by
  have hlen : (String.mk (List.replicate 3000 'a')).length = 3000 := by
    show (List.replicate 3000 'a').length = 3000
    rw [List.length_replicate]
  have hne : String.mk (List.replicate 3000 'a') ≠ "" := by
    intro hcon
    rw [hcon] at hlen
    exact absurd hlen (by decide)
  exact ⟨saveData_two_plain_comments "short" (String.mk (List.replicate 3000 'a'))
          "u" (by decide) hne, rfl, hlen, by decide, by decide⟩

/-- Claim C2 amended: every comment row inserted by `save_data` (beyond the
rows already present) has non-empty content equal verbatim to the coerced
content of one of the record comments — the only skip rule is emptiness
(no 10-character minimum) and no truncation is applied. -/
theorem C2_inserted_comments_full_content (r : Record) (url : String)
    (db : DB) (row : CommentRow)
    (h : row ∈ (saveData (some r) url db).1.comments) :
    row ∈ db.comments
    ∨ ∃ c ∈ r.comments, commentContent c ≠ "" ∧ row.content = commentContent c := by
  cases hf : db.posts.find? (fun p => p.url == url) with
  | none =>
    simp only [saveData, hf] at h
    rcases List.mem_append.mp h with hl | hr2
    · exact Or.inl hl
    · exact Or.inr (mem_savedCommentRows hr2)
  | some p =>
    simp only [saveData, hf] at h
    rcases List.mem_append.mp h with hl | hr2
    · exact Or.inl hl
    · exact Or.inr (mem_savedCommentRows hr2)

/-- Witness for the amended C2 at a concrete record and empty database. -/
theorem C2_inserted_comments_full_content_witness :
    ((⟨1, "hello world comment", "Unknown"⟩ : CommentRow)
      ∈ (saveData (some ⟨none, ContentVal.missing,
           [CommentIn.str "hello world comment"]⟩) "u" ⟨1, [], []⟩).1.comments)
    ∧ ((⟨1, "hello world comment", "Unknown"⟩ : CommentRow) ∈ ([] : List CommentRow)
       ∨ ∃ c ∈ [CommentIn.str "hello world comment"], commentContent c ≠ ""
           ∧ "hello world comment" = commentContent c) :=
  ⟨by decide,
   C2_inserted_comments_full_content
     ⟨none, ContentVal.missing, [CommentIn.str "hello world comment"]⟩ "u"
     ⟨1, [], []⟩ ⟨1, "hello world comment", "Unknown"⟩ (by decide)⟩

/-- Claim C1: starting from a database with no post for `url`, saving two
records against the same `url` inserts exactly one post row (the second call
finds the existing row), while the comment rows produced by both calls are
all present afterwards, appended under that single post id. -/
theorem C1_save_twice_single_post (r1 r2 : Record) (url : String) (db : DB)
    (h : ∀ p ∈ db.posts, p.url ≠ url) :
    ((saveData (some r2) url (saveData (some r1) url db).1).1.posts.countP
        (fun p => p.url == url) = 1)
    ∧ (saveData (some r2) url (saveData (some r1) url db).1).1.posts.length
        = db.posts.length + 1
    ∧ (saveData (some r2) url (saveData (some r1) url db).1).1.comments
        = db.comments ++ savedCommentRows db.nextId r1.comments
            ++ savedCommentRows db.nextId r2.comments := by
  have hnone : db.posts.find? (fun p => p.url == url) = none := by
    rw [List.find?_eq_none]
    intro x hx
    simpa using h x hx
  have h1 : (saveData (some r1) url db).1
      = ⟨db.nextId + 1,
         db.posts ++ [⟨db.nextId, url, pyTitle r1.title, coerceContent r1.content⟩],
         db.comments ++ savedCommentRows db.nextId r1.comments⟩ := by
    simp [saveData, hnone]
  have hfind2 : ((db.posts
      ++ [(⟨db.nextId, url, pyTitle r1.title, coerceContent r1.content⟩ : PostRow)]).find?
        (fun p => p.url == url))
      = some ⟨db.nextId, url, pyTitle r1.title, coerceContent r1.content⟩ := by
    rw [find?_append_none _ _ hnone]
    simp
  rw [h1]
  simp only [saveData, hfind2]
  refine ⟨?_, ?_, ?_⟩
  · rw [List.countP_append]
    have hz : db.posts.countP (fun p => p.url == url) = 0 := by
      rw [List.countP_eq_zero]
      intro a ha
      simpa using h a ha
    simp [hz, List.countP_cons]
  · simp
  · simp

/-- Witness for C1 at an empty database and two one-comment records. -/
theorem C1_save_twice_single_post_witness :
    (∀ p ∈ (⟨1, [], []⟩ : DB).posts, p.url ≠ "u")
    ∧ ((saveData (some ⟨some "T2", ContentVal.str "b2",
          [CommentIn.str "second call comment"]⟩) "u"
        (saveData (some ⟨some "T1", ContentVal.str "b1",
          [CommentIn.str "first call comment"]⟩) "u"
          (⟨1, [], []⟩ : DB)).1).1.posts.countP (fun p => p.url == "u") = 1) :=
  ⟨by simp, (C1_save_twice_single_post
    ⟨some "T1", ContentVal.str "b1", [CommentIn.str "first call comment"]⟩
    ⟨some "T2", ContentVal.str "b2", [CommentIn.str "second call comment"]⟩
    "u" ⟨1, [], []⟩ (by simp)).1⟩

end PA
